import Mathlib

/-!
Verification of the sentiment-analysis application `src/senti_app.py`.

The program has two pure core functions, `classify_sentiment` and
`analyze_reviews`, plus a file-upload boundary that validates the parsed
JSON document and dispatches to `analyze_reviews`.

Embedding choices:
* The external VADER analyzer is opaque; we model it as an abstract
  function `String → Rat` producing the compound score (and, for the
  failure-propagation claim, as `String → Except String Rat`).
* Python dictionaries are ordered association lists `List (String × α)`;
  `dict[k] = v` keeps the first position of an existing key, which
  `dictInsert` reproduces.
* Python values arriving from `json.load` are modelled by `PyVal`;
  truthiness, `in`, subscripting and `.strip()` follow Python semantics,
  with raised exceptions modelled as `Except.error` carrying the message.
-/

/-- The three sentiment labels returned by `classify_sentiment`. -/
inductive SentimentLabel where
  | positive
  | negative
  | neutral
  deriving DecidableEq, Repr

/-- Characters treated as whitespace by Python's `str.strip()`. -/
def isPySpace (c : Char) : Bool :=
  c = ' ' || c = '\t' || c = '\n' || c = '\r' || c = '\x0b' || c = '\x0c'

/-- Python `str.strip()`: remove leading and trailing whitespace. -/
def pyStrip (s : String) : String :=
  String.mk (((s.toList.dropWhile isPySpace).reverse.dropWhile isPySpace).reverse)

/-- Source line 30-37: `classify_sentiment(text)` obtains the compound
score from the analyzer and applies the fixed inclusive thresholds. -/
def classify_sentiment (analyzer : String → Rat) (text : String) : SentimentLabel :=
  let score := analyzer text
  if score ≥ 5/100 then SentimentLabel.positive
  else if score ≤ -(5/100) then SentimentLabel.negative
  else SentimentLabel.neutral

/-- The same classifier over an analyzer whose scoring may fail
(`analyzer.polarity_scores` raising); `classify_sentiment` has no
handler of its own, so the failure passes through the bind. -/
def classify_sentimentE (analyzer : String → Except String Rat) (text : String) :
    Except String SentimentLabel :=
  (analyzer text).bind fun score =>
    if score ≥ 5/100 then Except.ok SentimentLabel.positive
    else if score ≤ -(5/100) then Except.ok SentimentLabel.negative
    else Except.ok SentimentLabel.neutral

/-- Python `dict[k] = v` on an association list: update in place if the
key is present (keeping its position), else append at the end. -/
def dictInsert {α : Type} (key : String) (val : α) : List (String × α) → List (String × α)
  | [] => [(key, val)]
  | (k, v) :: rest => if k = key then (key, val) :: rest else (k, v) :: dictInsert key val rest

/-- Python `dict.get(k)` / `dict[k]` lookup on an association list. -/
def dictGet {α : Type} (key : String) : List (String × α) → Option α
  | [] => none
  | (k, v) :: rest => if k = key then some v else dictGet key rest

/-- The `summary` sub-dictionary of the output of `analyze_reviews`. -/
structure Summary where
  positive_count : Nat
  negative_count : Nat
  neutral_count : Nat
  deriving DecidableEq, Repr

/-- The output dictionary of `analyze_reviews`: per-id labels plus
summary counts. -/
structure AnalysisResult where
  sentiments : List (String × SentimentLabel)
  summary : Summary
  deriving DecidableEq, Repr

/-- The loop state of `analyze_reviews`: the `sentiments` dictionary and
the three counters. -/
structure AggState where
  sentiments : List (String × SentimentLabel)
  positive_count : Nat
  negative_count : Nat
  neutral_count : Nat
  deriving DecidableEq, Repr

/-- Source lines 54-71, one iteration of the loop in `analyze_reviews`
for a string-valued review text: the empty/whitespace special case, then
classification and the `if`/`elif`/`else` counter update. -/
def analyzeStep (analyzer : String → Rat) (st : AggState) (entry : String × String) :
    AggState :=
  let review_id := entry.1
  let review_text := entry.2
  if review_text = "" ∨ pyStrip review_text = "" then
    { st with sentiments := dictInsert review_id SentimentLabel.neutral st.sentiments,
              neutral_count := st.neutral_count + 1 }
  else
    let sentiment := classify_sentiment analyzer review_text
    let st1 := { st with sentiments := dictInsert review_id sentiment st.sentiments }
    if sentiment = SentimentLabel.positive then
      { st1 with positive_count := st1.positive_count + 1 }
    else if sentiment = SentimentLabel.negative then
      { st1 with negative_count := st1.negative_count + 1 }
    else
      { st1 with neutral_count := st1.neutral_count + 1 }

/-- Source lines 43-82: `analyze_reviews(review_dict)` for a string→string
dictionary, folding the loop body over the entries in iteration order and
packaging the output dictionary. -/
def analyze_reviews (analyzer : String → Rat) (review_dict : List (String × String)) :
    AnalysisResult :=
  let st := review_dict.foldl (analyzeStep analyzer) ⟨[], 0, 0, 0⟩
  { sentiments := st.sentiments,
    summary := { positive_count := st.positive_count,
                 negative_count := st.negative_count,
                 neutral_count := st.neutral_count } }

/-- Python values as they come out of `json.load`. -/
inductive PyVal where
  | vNone
  | vBool (b : Bool)
  | vNum (q : Rat)
  | vStr (s : String)
  | vList (xs : List PyVal)
  | vDict (fields : List (String × PyVal))

/-- Python truthiness (`bool(v)`) for the modelled values. -/
def pyTruthy : PyVal → Bool
  | PyVal.vNone => false
  | PyVal.vBool b => b
  | PyVal.vNum q => decide (q ≠ 0)
  | PyVal.vStr s => decide (s ≠ "")
  | PyVal.vList xs => !xs.isEmpty
  | PyVal.vDict fields => !fields.isEmpty

/-- Whether a `PyVal` is a string. -/
def PyVal.isStr : PyVal → Bool
  | PyVal.vStr _ => true
  | _ => false

/-- Whether a `PyVal` is a dictionary (`isinstance(v, dict)`). -/
def PyVal.isDict : PyVal → Bool
  | PyVal.vDict _ => true
  | _ => false

/-- Source lines 54-71, one iteration of the loop in `analyze_reviews`
with the review text an arbitrary Python value: `not review_text` is
decided first (short-circuiting `or`), then `.strip()` — which raises
`AttributeError` on a non-string — then classification on the original
string.  A raised exception is `Except.error`. -/
def analyzeStepP (analyzer : String → Rat) (st : AggState) (entry : String × PyVal) :
    Except String AggState :=
  let review_id := entry.1
  let review_text := entry.2
  if pyTruthy review_text = false then
    Except.ok { st with
      sentiments := dictInsert review_id SentimentLabel.neutral st.sentiments,
      neutral_count := st.neutral_count + 1 }
  else
    match review_text with
    | PyVal.vStr s =>
      if pyStrip s = "" then
        Except.ok { st with
          sentiments := dictInsert review_id SentimentLabel.neutral st.sentiments,
          neutral_count := st.neutral_count + 1 }
      else
        let sentiment := classify_sentiment analyzer s
        let st1 := { st with sentiments := dictInsert review_id sentiment st.sentiments }
        if sentiment = SentimentLabel.positive then
          Except.ok { st1 with positive_count := st1.positive_count + 1 }
        else if sentiment = SentimentLabel.negative then
          Except.ok { st1 with negative_count := st1.negative_count + 1 }
        else
          Except.ok { st1 with neutral_count := st1.neutral_count + 1 }
    | _ => Except.error "AttributeError: object has no attribute strip"

/-- Source lines 43-82: `analyze_reviews(review_dict)` with arbitrary
Python values as texts; an exception in any iteration aborts the whole
fold. -/
def analyze_reviewsP (analyzer : String → Rat) (review_dict : List (String × PyVal)) :
    Except String AnalysisResult :=
  match review_dict.foldlM (analyzeStepP analyzer) (⟨[], 0, 0, 0⟩ : AggState) with
  | Except.error e => Except.error e
  | Except.ok st =>
    Except.ok { sentiments := st.sentiments,
                summary := { positive_count := st.positive_count,
                             negative_count := st.negative_count,
                             neutral_count := st.neutral_count } }

/-- Match of a pattern against the front of a character list. -/
def strLeadMatch : List Char → List Char → Bool
  | [], _ => true
  | _ :: _, [] => false
  | a :: as, b :: bs => a = b && strLeadMatch as bs

/-- Substring test on character lists (Python `needle in haystack` for
strings). -/
def strContainsSub : List Char → List Char → Bool
  | [], needle => needle.isEmpty
  | h :: t, needle => strLeadMatch needle (h :: t) || strContainsSub t needle

/-- Python `key in data`: key membership for a dict, element membership
for a list, substring for a string; `TypeError` otherwise. -/
def pyContains (data : PyVal) (key : String) : Except String Bool :=
  match data with
  | PyVal.vDict fields => Except.ok (fields.any fun p => p.1 = key)
  | PyVal.vList xs =>
      Except.ok (xs.any fun v =>
        match v with
        | PyVal.vStr s => decide (s = key)
        | _ => false)
  | PyVal.vStr s => Except.ok (strContainsSub s.toList key.toList)
  | _ => Except.error "TypeError: argument is not iterable"

/-- Python `data[key]` with a string key: dictionary lookup, `TypeError`
on any non-dict value. -/
def pySubscript (data : PyVal) (key : String) : Except String PyVal :=
  match data with
  | PyVal.vDict fields =>
    match dictGet key fields with
    | some v => Except.ok v
    | none => Except.error "KeyError: reviews"
  | _ => Except.error "TypeError: value is not subscriptable"

/-- What the UI reports for one upload: an error banner, a warning
banner, or the rendered analysis output. -/
inductive UiOutcome where
  | errorMsg (msg : String)
  | warningMsg (msg : String)
  | success (output : AnalysisResult)
  deriving DecidableEq

/-- Source lines 102-138, the body of the `try` block after `json.load`
succeeded: the three validation checks in order, else the call to
`analyze_reviews`.  A raised exception is `Except.error` with the
exception message. -/
def uploadBody (analyzer : String → Rat) (data : PyVal) : Except String UiOutcome :=
  match pyContains data "reviews" with
  | Except.error e => Except.error e
  | Except.ok hasKey =>
    if hasKey = false then
      Except.ok (UiOutcome.errorMsg "❌ JSON must contain 'reviews' key.")
    else
      match pySubscript data "reviews" with
      | Except.error e => Except.error e
      | Except.ok reviews =>
        match reviews with
        | PyVal.vDict fields =>
          if fields.length = 0 then
            Except.ok (UiOutcome.warningMsg "⚠ Review dictionary is empty.")
          else
            match analyze_reviewsP analyzer fields with
            | Except.error e => Except.error e
            | Except.ok output => Except.ok (UiOutcome.success output)
        | _ =>
          Except.ok (UiOutcome.errorMsg "❌ 'reviews' must be a dictionary with id:text format.")

/-- The result of `json.load` on the uploaded file: a parsed value, or a
`json.JSONDecodeError`. -/
inductive UploadInput where
  | parsed (data : PyVal)
  | malformed

/-- Source lines 101-144: the whole `try`/`except` boundary.  A parse
failure reports the invalid-JSON message; any other exception raised in
the body is caught by `except Exception` and reported with its message. -/
def processUpload (analyzer : String → Rat) : UploadInput → UiOutcome
  | UploadInput.malformed => UiOutcome.errorMsg "❌ Invalid JSON file format."
  | UploadInput.parsed data =>
    match uploadBody analyzer data with
    | Except.ok outcome => outcome
    | Except.error msg => UiOutcome.errorMsg ("⚠ Unexpected Error: " ++ msg)

/-- The label `analyze_reviews` assigns to one entry: neutral on the
empty/whitespace path, the classifier output otherwise. -/
def entryLabel (analyzer : String → Rat) (t : String) : SentimentLabel :=
  if t = "" ∨ pyStrip t = "" then SentimentLabel.neutral
  else classify_sentiment analyzer t

/-! ## Helper lemmas -/

theorem analyzeStep_char (analyzer : String → Rat) (st : AggState) (e : String × String) :
    analyzeStep analyzer st e =
      { sentiments := dictInsert e.1 (entryLabel analyzer e.2) st.sentiments,
        positive_count :=
          st.positive_count + (if entryLabel analyzer e.2 = SentimentLabel.positive then 1 else 0),
        negative_count :=
          st.negative_count + (if entryLabel analyzer e.2 = SentimentLabel.negative then 1 else 0),
        neutral_count :=
          st.neutral_count + (if entryLabel analyzer e.2 = SentimentLabel.neutral then 1 else 0) } := by
  unfold analyzeStep entryLabel
  by_cases h : e.2 = "" ∨ pyStrip e.2 = ""
  · simp [h]
  · simp only [h, if_false]
    cases hc : classify_sentiment analyzer e.2 <;> simp [hc]

theorem foldl_positive_count (a : String → Rat) :
    ∀ (d : List (String × String)) (st : AggState),
    (d.foldl (analyzeStep a) st).positive_count
      = st.positive_count + d.countP (fun e => decide (entryLabel a e.2 = SentimentLabel.positive))
  | [], st => by simp
  | e :: rest, st => by
    rw [List.foldl_cons, analyzeStep_char, foldl_positive_count a rest]
    by_cases h : entryLabel a e.2 = SentimentLabel.positive <;>
      (simp [List.countP_cons, h]; try omega)

theorem foldl_negative_count (a : String → Rat) :
    ∀ (d : List (String × String)) (st : AggState),
    (d.foldl (analyzeStep a) st).negative_count
      = st.negative_count + d.countP (fun e => decide (entryLabel a e.2 = SentimentLabel.negative))
  | [], st => by simp
  | e :: rest, st => by
    rw [List.foldl_cons, analyzeStep_char, foldl_negative_count a rest]
    by_cases h : entryLabel a e.2 = SentimentLabel.negative <;>
      (simp [List.countP_cons, h]; try omega)

theorem foldl_neutral_count (a : String → Rat) :
    ∀ (d : List (String × String)) (st : AggState),
    (d.foldl (analyzeStep a) st).neutral_count
      = st.neutral_count + d.countP (fun e => decide (entryLabel a e.2 = SentimentLabel.neutral))
  | [], st => by simp
  | e :: rest, st => by
    rw [List.foldl_cons, analyzeStep_char, foldl_neutral_count a rest]
    by_cases h : entryLabel a e.2 = SentimentLabel.neutral <;>
      (simp [List.countP_cons, h]; try omega)

theorem foldl_sentiments (a : String → Rat) :
    ∀ (d : List (String × String)) (st : AggState),
    (d.foldl (analyzeStep a) st).sentiments
      = d.foldl (fun acc e => dictInsert e.1 (entryLabel a e.2) acc) st.sentiments
  | [], _ => rfl
  | e :: rest, st => by
    rw [List.foldl_cons, analyzeStep_char, foldl_sentiments a rest, List.foldl_cons]

theorem dictInsert_of_fresh {α : Type} (key : String) (val : α) :
    ∀ l : List (String × α), key ∉ l.map Prod.fst → dictInsert key val l = l ++ [(key, val)]
  | [], _ => rfl
  | (k, v) :: rest, h => by
    simp only [List.map_cons, List.mem_cons, not_or] at h
    show (if k = key then _ else _) = _
    rw [if_neg (fun hk => h.1 hk.symm), dictInsert_of_fresh key val rest h.2]
    rfl

theorem foldl_dictInsert_fresh (a : String → Rat) :
    ∀ (d : List (String × String)) (acc : List (String × SentimentLabel)),
    (d.map Prod.fst).Nodup → (∀ k ∈ d.map Prod.fst, k ∉ acc.map Prod.fst) →
    d.foldl (fun acc e => dictInsert e.1 (entryLabel a e.2) acc) acc
      = acc ++ d.map (fun e => (e.1, entryLabel a e.2))
  | [], acc, _, _ => by simp
  | e :: rest, acc, hnd, hfresh => by
    simp only [List.map_cons, List.nodup_cons] at hnd
    rw [List.foldl_cons, dictInsert_of_fresh e.1 _ acc (hfresh e.1 (by simp)),
        foldl_dictInsert_fresh a rest _ hnd.2 ?_]
    · simp
    · intro k hk
      simp only [List.map_append, List.map_cons, List.map_nil, List.mem_append,
        List.mem_singleton, not_or]
      refine ⟨hfresh k (by simp [hk]), ?_⟩
      intro hke
      exact hnd.1 (hke ▸ hk)

theorem analyze_reviews_sentiments (a : String → Rat) (d : List (String × String))
    (hnd : (d.map Prod.fst).Nodup) :
    (analyze_reviews a d).sentiments = d.map (fun e => (e.1, entryLabel a e.2)) := by
  show (d.foldl (analyzeStep a) ⟨[], 0, 0, 0⟩).sentiments = _
  rw [foldl_sentiments, foldl_dictInsert_fresh a d [] hnd (by simp)]
  simp

theorem dictGet_map_of_mem (a : String → Rat) :
    ∀ (d : List (String × String)) (rid t : String),
    (d.map Prod.fst).Nodup → (rid, t) ∈ d →
    dictGet rid (d.map (fun e => (e.1, entryLabel a e.2))) = some (entryLabel a t)
  | [], _, _, _, hmem => absurd hmem (List.not_mem_nil _)
  | (k, v) :: rest, rid, t, hnd, hmem => by
    simp only [List.map_cons, List.nodup_cons] at hnd
    by_cases hk : k = rid
    · subst hk
      rcases List.mem_cons.mp hmem with hhead | htail
      · rw [Prod.mk.injEq] at hhead
        show (if k = k then some (entryLabel a v) else _) = _
        rw [if_pos rfl, hhead.2]
      · exact absurd (List.mem_map.mpr ⟨(k, t), htail, rfl⟩) hnd.1
    · show (if k = rid then _ else _) = _
      rw [if_neg hk]
      rcases List.mem_cons.mp hmem with hhead | htail
      · rw [Prod.mk.injEq] at hhead
        exact absurd hhead.1.symm hk
      · exact dictGet_map_of_mem a rest rid t hnd.2 htail

theorem dropWhile_all {p : Char → Bool} :
    ∀ l : List Char, (∀ c ∈ l, p c = true) → l.dropWhile p = []
  | [], _ => rfl
  | c :: cs, h => by
    rw [List.dropWhile_cons, if_pos (h c (by simp))]
    exact dropWhile_all cs (fun x hx => h x (by simp [hx]))

theorem pyStrip_of_all_space (t : String) (h : ∀ c ∈ t.toList, isPySpace c = true) :
    pyStrip t = "" := by
  unfold pyStrip
  rw [dropWhile_all _ h]
  rfl

theorem countP_labels_sum (a : String → Rat) :
    ∀ d : List (String × String),
    d.countP (fun e => decide (entryLabel a e.2 = SentimentLabel.positive))
      + d.countP (fun e => decide (entryLabel a e.2 = SentimentLabel.negative))
      + d.countP (fun e => decide (entryLabel a e.2 = SentimentLabel.neutral)) = d.length
  | [] => rfl
  | e :: rest => by
    have ih := countP_labels_sum a rest
    simp only [List.countP_cons, List.length_cons]
    cases h : entryLabel a e.2 <;> simp [h] <;> omega

theorem classify_eval (analyzer : String → Rat) (text : String) :
    classify_sentiment analyzer text =
      if analyzer text ≥ 5/100 then SentimentLabel.positive
      else if analyzer text ≤ -(5/100) then SentimentLabel.negative
      else SentimentLabel.neutral := rfl

/-! ## Claims -/

/-- C1: For every text, `classify_sentiment` returns positive when the
analyzer's compound score is ≥ 0.05, negative when the score is ≤ -0.05,
and neutral otherwise; in particular a score of exactly 0.05 yields
positive and exactly -0.05 yields negative. -/
theorem claim_C1_classifier_thresholds (analyzer : String → Rat) (text : String) :
    (analyzer text ≥ 5/100 → classify_sentiment analyzer text = SentimentLabel.positive)
    ∧ (analyzer text ≤ -(5/100) → classify_sentiment analyzer text = SentimentLabel.negative)
    ∧ (-(5/100) < analyzer text → analyzer text < 5/100 →
        classify_sentiment analyzer text = SentimentLabel.neutral)
    ∧ (analyzer text = 5/100 → classify_sentiment analyzer text = SentimentLabel.positive)
    ∧ (analyzer text = -(5/100) → classify_sentiment analyzer text = SentimentLabel.negative) := by
  refine ⟨fun h => ?_, fun h => ?_, fun h1 h2 => ?_, fun h => ?_, fun h => ?_⟩ <;>
    rw [classify_eval]
  · rw [if_pos h]
  · rw [if_neg (not_le.mpr (by linarith)), if_pos h]
  · rw [if_neg (not_le.mpr h2), if_neg (not_le.mpr h1)]
  · rw [if_pos h.ge]
  · rw [if_neg (not_le.mpr (by rw [h]; norm_num)), if_pos h.le]

/-- Witness for C1 at scores 0.05, -0.05 and 0. -/
theorem claim_C1_witness :
    classify_sentiment (fun _ => 5/100) "good" = SentimentLabel.positive
    ∧ classify_sentiment (fun _ => -(5/100)) "bad" = SentimentLabel.negative
    ∧ classify_sentiment (fun _ => 0) "meh" = SentimentLabel.neutral :=
  ⟨(claim_C1_classifier_thresholds (fun _ => 5/100) "good").1 (by norm_num),
   (claim_C1_classifier_thresholds (fun _ => -(5/100)) "bad").2.1 (by norm_num),
   (claim_C1_classifier_thresholds (fun _ => 0) "meh").2.2.1 (by norm_num) (by norm_num)⟩

/-- C7: the Classifier has no error handling of its own: when the
analyzer's scoring fails, `classify_sentimentE` returns exactly that
failure, producing no label. -/
theorem claim_C7_classifier_propagates (analyzer : String → Except String Rat)
    (text e : String) (h : analyzer text = Except.error e) :
    classify_sentimentE analyzer text = Except.error e := by
  unfold classify_sentimentE
  rw [h]
  rfl

/-- Witness for C7 with an analyzer that always raises. -/
theorem claim_C7_witness :
    classify_sentimentE (fun _ => Except.error "VADER failure") "some text"
      = Except.error "VADER failure" :=
  claim_C7_classifier_propagates (fun _ => Except.error "VADER failure") "some text"
    "VADER failure" rfl

/-- C8: the Classifier is deterministic: for a fixed analyzer, two calls
of `classify_sentiment` on the same text return the same label. -/
theorem claim_C8_classifier_deterministic (analyzer : String → Rat) (t1 t2 : String)
    (h : t1 = t2) :
    classify_sentiment analyzer t1 = classify_sentiment analyzer t2 := by
  rw [h]

/-- Witness for C8 on two equal texts. -/
theorem claim_C8_witness :
    classify_sentiment (fun _ => 1) "same text" = classify_sentiment (fun _ => 1) "same text" :=
  claim_C8_classifier_deterministic (fun _ => 1) "same text" "same text" rfl

/-- C10: `analyze_reviews` on the empty dictionary returns an empty
sentiments mapping and all three counts zero, without error. -/
theorem claim_C10_empty_dict (analyzer : String → Rat) :
    analyze_reviews analyzer [] =
      { sentiments := [],
        summary := { positive_count := 0, negative_count := 0, neutral_count := 0 } } := rfl

/-- C2: for every ReviewSet (dictionary, so with pairwise-distinct keys),
the result of `analyze_reviews` has a sentiments mapping whose keys equal
the ReviewSet's keys (hence the same size), and the three summary counts
sum to the size of the ReviewSet. -/
theorem claim_C2_result_shape (analyzer : String → Rat)
    (review_dict : List (String × String)) (hnd : (review_dict.map Prod.fst).Nodup) :
    (analyze_reviews analyzer review_dict).sentiments.map Prod.fst = review_dict.map Prod.fst
    ∧ (analyze_reviews analyzer review_dict).sentiments.length = review_dict.length
    ∧ (analyze_reviews analyzer review_dict).summary.positive_count
        + (analyze_reviews analyzer review_dict).summary.negative_count
        + (analyze_reviews analyzer review_dict).summary.neutral_count
      = review_dict.length := by
  have hs := analyze_reviews_sentiments analyzer review_dict hnd
  refine ⟨?_, ?_, ?_⟩
  · rw [hs, List.map_map]
    rfl
  · rw [hs, List.length_map]
  · show (review_dict.foldl (analyzeStep analyzer) ⟨[], 0, 0, 0⟩).positive_count
        + (review_dict.foldl (analyzeStep analyzer) ⟨[], 0, 0, 0⟩).negative_count
        + (review_dict.foldl (analyzeStep analyzer) ⟨[], 0, 0, 0⟩).neutral_count
        = review_dict.length
    rw [foldl_positive_count, foldl_negative_count, foldl_neutral_count]
    simpa using countP_labels_sum analyzer review_dict

/-- Witness for C2 on a two-review dictionary. -/
theorem claim_C2_witness :
    (analyze_reviews (fun _ => 1/10) [("id1", "great"), ("id2", " ")]).sentiments.map Prod.fst
      = ["id1", "id2"]
    ∧ (analyze_reviews (fun _ => 1/10) [("id1", "great"), ("id2", " ")]).summary.positive_count
        + (analyze_reviews (fun _ => 1/10) [("id1", "great"), ("id2", " ")]).summary.negative_count
        + (analyze_reviews (fun _ => 1/10) [("id1", "great"), ("id2", " ")]).summary.neutral_count
      = 2 := by
  have h := claim_C2_result_shape (fun _ => 1/10) [("id1", "great"), ("id2", " ")] (by decide)
  exact ⟨h.1, h.2.2⟩

/-- C3: for every ReviewSet, each summary count of `analyze_reviews` is
a consistent tally of the sentiments mapping: `positive_count` is the
number of ids labeled positive, `negative_count` the number labeled
negative, and `neutral_count` the number labeled neutral (the empty-text
path included, since it stores neutral). -/
theorem claim_C3_counts_tally (analyzer : String → Rat)
    (review_dict : List (String × String)) (hnd : (review_dict.map Prod.fst).Nodup) :
    (analyze_reviews analyzer review_dict).summary.positive_count
      = ((analyze_reviews analyzer review_dict).sentiments.countP
          fun p => decide (p.2 = SentimentLabel.positive))
    ∧ (analyze_reviews analyzer review_dict).summary.negative_count
      = ((analyze_reviews analyzer review_dict).sentiments.countP
          fun p => decide (p.2 = SentimentLabel.negative))
    ∧ (analyze_reviews analyzer review_dict).summary.neutral_count
      = ((analyze_reviews analyzer review_dict).sentiments.countP
          fun p => decide (p.2 = SentimentLabel.neutral)) := by
  have hs := analyze_reviews_sentiments analyzer review_dict hnd
  rw [hs]
  refine ⟨?_, ?_, ?_⟩
  · show (review_dict.foldl (analyzeStep analyzer) ⟨[], 0, 0, 0⟩).positive_count = _
    rw [foldl_positive_count, List.countP_map]
    simp only [zero_add]
    rfl
  · show (review_dict.foldl (analyzeStep analyzer) ⟨[], 0, 0, 0⟩).negative_count = _
    rw [foldl_negative_count, List.countP_map]
    simp only [zero_add]
    rfl
  · show (review_dict.foldl (analyzeStep analyzer) ⟨[], 0, 0, 0⟩).neutral_count = _
    rw [foldl_neutral_count, List.countP_map]
    simp only [zero_add]
    rfl

/-- Witness for C3 on a three-review dictionary. -/
theorem claim_C3_witness :
    (analyze_reviews (fun t => if t = "bad" then -(1 : Rat) else 1)
        [("a", "bad"), ("b", "nice"), ("c", "")]).summary.negative_count
      = ((analyze_reviews (fun t => if t = "bad" then -(1 : Rat) else 1)
          [("a", "bad"), ("b", "nice"), ("c", "")]).sentiments.countP
          fun p => decide (p.2 = SentimentLabel.negative)) :=
  (claim_C3_counts_tally (fun t => if t = "bad" then -(1 : Rat) else 1)
    [("a", "bad"), ("b", "nice"), ("c", "")] (by decide)).2.1

/-- C4: every review whose text is empty or all-whitespace is assigned
neutral by `analyze_reviews`, whatever the analyzer would score it. -/
theorem claim_C4_empty_text_neutral (analyzer : String → Rat)
    (review_dict : List (String × String)) (rid t : String)
    (hnd : (review_dict.map Prod.fst).Nodup) (hmem : (rid, t) ∈ review_dict)
    (hws : ∀ c ∈ t.toList, isPySpace c = true) :
    dictGet rid (analyze_reviews analyzer review_dict).sentiments
      = some SentimentLabel.neutral := by
  rw [analyze_reviews_sentiments analyzer review_dict hnd,
      dictGet_map_of_mem analyzer review_dict rid t hnd hmem]
  unfold entryLabel
  rw [if_pos (Or.inr (pyStrip_of_all_space t hws))]

/-- Witness for C4: a whitespace-only review under an analyzer that
scores everything positive. -/
theorem claim_C4_witness :
    dictGet "id1" (analyze_reviews (fun _ => 1) [("id1", "  "), ("id2", "fine")]).sentiments
      = some SentimentLabel.neutral :=
  claim_C4_empty_text_neutral (fun _ => 1) [("id1", "  "), ("id2", "fine")] "id1" "  "
    (by decide) (by decide) (by decide)

theorem any_key_eq_dictGet {α : Type} (key : String) :
    ∀ l : List (String × α), (l.any fun p => decide (p.1 = key)) = (dictGet key l).isSome
  | [] => rfl
  | (k, v) :: rest => by
    show (decide (k = key) || _) = _
    by_cases h : k = key
    · simp [h, dictGet]
    · simp [h, dictGet, any_key_eq_dictGet key rest]

theorem uploadBody_missing (analyzer : String → Rat) (fields : List (String × PyVal))
    (h : dictGet "reviews" fields = none) :
    uploadBody analyzer (PyVal.vDict fields)
      = Except.ok (UiOutcome.errorMsg "❌ JSON must contain 'reviews' key.") := by
  have hany : (fields.any fun p => decide (p.1 = "reviews")) = false := by
    rw [any_key_eq_dictGet, h]
    rfl
  unfold uploadBody pyContains
  simp [hany]

theorem uploadBody_not_dict (analyzer : String → Rat) (fields : List (String × PyVal))
    (r : PyVal) (h : dictGet "reviews" fields = some r) (hr : r.isDict = false) :
    uploadBody analyzer (PyVal.vDict fields)
      = Except.ok (UiOutcome.errorMsg "❌ 'reviews' must be a dictionary with id:text format.") := by
  have hany : (fields.any fun p => decide (p.1 = "reviews")) = true := by
    rw [any_key_eq_dictGet, h]
    rfl
  unfold uploadBody pyContains pySubscript
  cases r <;> simp_all [PyVal.isDict]

theorem uploadBody_empty (analyzer : String → Rat) (fields : List (String × PyVal))
    (h : dictGet "reviews" fields = some (PyVal.vDict [])) :
    uploadBody analyzer (PyVal.vDict fields)
      = Except.ok (UiOutcome.warningMsg "⚠ Review dictionary is empty.") := by
  have hany : (fields.any fun p => decide (p.1 = "reviews")) = true := by
    rw [any_key_eq_dictGet, h]
    rfl
  unfold uploadBody pyContains pySubscript
  simp [hany, h]

theorem uploadBody_nonempty (analyzer : String → Rat) (fields : List (String × PyVal))
    (gs : List (String × PyVal)) (h : dictGet "reviews" fields = some (PyVal.vDict gs))
    (hgs : gs ≠ []) :
    uploadBody analyzer (PyVal.vDict fields)
      = match analyze_reviewsP analyzer gs with
        | Except.error e => Except.error e
        | Except.ok output => Except.ok (UiOutcome.success output) := by
  have hany : (fields.any fun p => decide (p.1 = "reviews")) = true := by
    rw [any_key_eq_dictGet, h]
    rfl
  have hlen : gs.length ≠ 0 := fun hl => hgs (List.eq_nil_of_length_eq_zero hl)
  unfold uploadBody pyContains pySubscript
  simp [hany, h, hlen]

theorem processUpload_parsed (analyzer : String → Rat) (data : PyVal) :
    processUpload analyzer (UploadInput.parsed data)
      = match uploadBody analyzer data with
        | Except.ok outcome => outcome
        | Except.error msg => UiOutcome.errorMsg ("⚠ Unexpected Error: " ++ msg) := rfl

/-- C5: validation of the parsed document is checked in order with the
first failure winning: a top-level object lacking the key reviews
reports the missing-key error; a non-dictionary reviews value reports
the format error; an empty reviews dictionary reports the emptiness
warning; only otherwise does the boundary invoke `analyze_reviews`. -/
theorem claim_C5_validation_order (analyzer : String → Rat) (fields : List (String × PyVal)) :
    (dictGet "reviews" fields = none →
      processUpload analyzer (UploadInput.parsed (PyVal.vDict fields))
        = UiOutcome.errorMsg "❌ JSON must contain 'reviews' key.")
    ∧ (∀ r : PyVal, dictGet "reviews" fields = some r → r.isDict = false →
      processUpload analyzer (UploadInput.parsed (PyVal.vDict fields))
        = UiOutcome.errorMsg "❌ 'reviews' must be a dictionary with id:text format.")
    ∧ (dictGet "reviews" fields = some (PyVal.vDict []) →
      processUpload analyzer (UploadInput.parsed (PyVal.vDict fields))
        = UiOutcome.warningMsg "⚠ Review dictionary is empty.")
    ∧ (∀ gs : List (String × PyVal),
        dictGet "reviews" fields = some (PyVal.vDict gs) → gs ≠ [] →
      processUpload analyzer (UploadInput.parsed (PyVal.vDict fields))
        = match analyze_reviewsP analyzer gs with
          | Except.ok output => UiOutcome.success output
          | Except.error msg => UiOutcome.errorMsg ("⚠ Unexpected Error: " ++ msg)) := by
  refine ⟨fun h => ?_, fun r h hr => ?_, fun h => ?_, fun gs h hgs => ?_⟩
  · rw [processUpload_parsed, uploadBody_missing analyzer fields h]
  · rw [processUpload_parsed, uploadBody_not_dict analyzer fields r h hr]
  · rw [processUpload_parsed, uploadBody_empty analyzer fields h]
  · rw [processUpload_parsed, uploadBody_nonempty analyzer fields gs h hgs]
    cases analyze_reviewsP analyzer gs <;> rfl

/-- Witness for C5: one concrete upload per validation branch. -/
theorem claim_C5_witness :
    processUpload (fun _ => 1) (UploadInput.parsed (PyVal.vDict [("foo", PyVal.vNone)]))
      = UiOutcome.errorMsg "❌ JSON must contain 'reviews' key."
    ∧ processUpload (fun _ => 1) (UploadInput.parsed (PyVal.vDict [("reviews", PyVal.vList [])]))
      = UiOutcome.errorMsg "❌ 'reviews' must be a dictionary with id:text format."
    ∧ processUpload (fun _ => 1) (UploadInput.parsed (PyVal.vDict [("reviews", PyVal.vDict [])]))
      = UiOutcome.warningMsg "⚠ Review dictionary is empty."
    ∧ processUpload (fun _ => 1)
        (UploadInput.parsed (PyVal.vDict [("reviews", PyVal.vDict [("id1", PyVal.vStr " ")])]))
      = UiOutcome.success
          { sentiments := [("id1", SentimentLabel.neutral)],
            summary := { positive_count := 0, negative_count := 0, neutral_count := 1 } } := by
  refine ⟨?_, ?_, ?_, ?_⟩
  · exact (claim_C5_validation_order (fun _ => 1) [("foo", PyVal.vNone)]).1 rfl
  · exact (claim_C5_validation_order (fun _ => 1) [("reviews", PyVal.vList [])]).2.1
      (PyVal.vList []) rfl rfl
  · exact (claim_C5_validation_order (fun _ => 1) [("reviews", PyVal.vDict [])]).2.2.1 rfl
  · have h := (claim_C5_validation_order (fun _ => 1)
      [("reviews", PyVal.vDict [("id1", PyVal.vStr " ")])]).2.2.2
      [("id1", PyVal.vStr " ")] rfl (List.cons_ne_nil _ _)
    rw [h]
    rfl

/-- C6: a JSON parse failure reports the invalid-format message, and any
other exception raised inside the processing block is caught by the
boundary and reported as an unexpected error carrying the exception's
message, so the process never crashes. -/
theorem claim_C6_boundary_errors (analyzer : String → Rat) :
    processUpload analyzer UploadInput.malformed
      = UiOutcome.errorMsg "❌ Invalid JSON file format."
    ∧ ∀ (data : PyVal) (msg : String), uploadBody analyzer data = Except.error msg →
        processUpload analyzer (UploadInput.parsed data)
          = UiOutcome.errorMsg ("⚠ Unexpected Error: " ++ msg) := by
  refine ⟨rfl, fun data msg h => ?_⟩
  rw [processUpload_parsed, h]

/-- Witness for C6: an upload whose top-level value is a number, so that
the membership test raises a TypeError inside the try block. -/
theorem claim_C6_witness :
    processUpload (fun _ => 0) (UploadInput.parsed (PyVal.vNum 5))
      = UiOutcome.errorMsg "⚠ Unexpected Error: TypeError: argument is not iterable" :=
  (claim_C6_boundary_errors (fun _ => 0)).2 (PyVal.vNum 5)
    "TypeError: argument is not iterable" rfl

/-- C9: a review whose text is a falsy non-string Python value (such as
None) passes the short-circuiting emptiness check before `.strip()` is
reached, so the loop body raises nothing and assigns neutral: the
AttributeError branch is unreachable for such values. -/
theorem claim_C9_falsy_text_neutral (analyzer : String → Rat) (v : PyVal)
    (hfalsy : pyTruthy v = false) (_hns : v.isStr = false) :
    (∀ (st : AggState) (rid : String),
      analyzeStepP analyzer st (rid, v) =
        Except.ok { st with
          sentiments := dictInsert rid SentimentLabel.neutral st.sentiments,
          neutral_count := st.neutral_count + 1 })
    ∧ ∀ rid : String,
        analyze_reviewsP analyzer [(rid, v)] =
          Except.ok { sentiments := [(rid, SentimentLabel.neutral)],
                      summary := { positive_count := 0, negative_count := 0,
                                   neutral_count := 1 } } := by
  have hstep : ∀ (st : AggState) (rid : String),
      analyzeStepP analyzer st (rid, v) =
        Except.ok { st with
          sentiments := dictInsert rid SentimentLabel.neutral st.sentiments,
          neutral_count := st.neutral_count + 1 } := by
    intro st rid
    unfold analyzeStepP
    simp [hfalsy]
  refine ⟨hstep, fun rid => ?_⟩
  unfold analyze_reviewsP
  rw [List.foldlM_cons, hstep]
  rfl

/-- Witness for C9 with a None-valued review text. -/
theorem claim_C9_witness :
    analyze_reviewsP (fun _ => 1) [("id1", PyVal.vNone)] =
      Except.ok { sentiments := [("id1", SentimentLabel.neutral)],
                  summary := { positive_count := 0, negative_count := 0,
                               neutral_count := 1 } } :=
  (claim_C9_falsy_text_neutral (fun _ => 1) PyVal.vNone rfl rfl).2 "id1"
